import Mathlib

/-!
Shallow embedding of `src/SpaceContentGeneral/Misc/ScriptInit.py`.

The script defines three entry points — `goto`, `setBaseStat`, `desync` —
that act on host-owned state: an avatar entity carrying a `Transform`
component (a staged/committed 2D translation pair), a character entity
carrying base stats, the process-wide module search path (`sys.path`,
which `desync` appends to), and a process-wide uniform random source
(`random.random()`, modelled as a stream of draws with a cursor).

Coordinates and stat values are modelled as rationals (exact arithmetic
standing in for the host's floating-point numbers; the script performs
only assignment and addition). Each operation returns its result
(`.ok` or a propagated host error), the successor host state, and the
trace of host-API events it issued, so that ordering and frame claims
can be stated directly.
-/

/-- A 2D translation: an (X, Y) coordinate pair. -/
structure Vec2 where
  x : ℚ
  y : ℚ
deriving DecidableEq

/-- The avatar's `Transform` component: a staged (pending) translation set by
`SetTranslation` and a committed translation set by `ApplyTranslation`.
`component.Translation` reads the committed value. -/
structure Transform where
  pending : Vec2
  committed : Vec2
deriving DecidableEq

/-- Errors propagated from the host interface. -/
inductive HostError where
  | componentNotFound
deriving DecidableEq

/-- Host-API events issued by the script, in order. -/
inductive Event where
  | getComponent
  | readTranslation (v : Vec2)
  | setTranslation (v : Vec2)
  | applyTranslation
  | setBaseValue (statType : ℕ) (value : ℚ)
  | pathAppend (dir : String)
  | randomDraw (r : ℚ)
deriving DecidableEq

/-- The host-owned state visible to the script: the avatar's `Transform`
component (or `none` when the host cannot resolve it), the character's
base stats, the module search path `sys.path`, and the random source
(a stream of draws `rng` together with the cursor of the next draw). -/
structure HostState where
  avatarTransform : Option Transform
  charStats : ℕ → ℚ
  sysPath : List String
  rng : ℕ → ℚ
  rngCursor : ℕ

/-- Outcome of one script call: its result, the successor state, and the
trace of host-API events it issued. -/
structure Outcome where
  result : Except HostError Unit
  state : HostState
  trace : List Event

/-- The directory `desync` appends to `sys.path` before importing `random`. -/
def ironPythonLibDir : String := "C:\\Program Files (x86)\\IronPython 2.7.1\\Lib"

/-- `goto(x, y)`: resolve the avatar's `Transform` component via the manager
(propagating `componentNotFound` if the host cannot resolve it), stage the
pending translation `(x, y)`, then apply (commit) the staged value. -/
def goto (x y : ℚ) (s : HostState) : Outcome :=
  match s.avatarTransform with
  | none =>
      { result := .error .componentNotFound, state := s, trace := [.getComponent] }
  | some c =>
      let c1 : Transform := { c with pending := ⟨x, y⟩ }
      let c2 : Transform := { c1 with committed := c1.pending }
      { result := .ok ()
        state := { s with avatarTransform := some c2 }
        trace := [.getComponent, .setTranslation ⟨x, y⟩, .applyTranslation] }

/-- `setBaseStat(type, value)`: forward both arguments unchanged to the host
character's `SetBaseValue`. -/
def setBaseStat (type : ℕ) (value : ℚ) (s : HostState) : Outcome :=
  { result := .ok ()
    state := { s with charStats := Function.update s.charStats type value }
    trace := [.setBaseValue type value] }

/-- `desync()`: append the IronPython library directory to `sys.path` and
then load `random`; read the avatar's current (committed) translation
(propagating `componentNotFound` if the component cannot be resolved);
then call `goto` with each axis offset by one fresh random draw, the X
offset drawn before the Y offset (Python evaluates arguments left to
right). -/
def desync (s : HostState) : Outcome :=
  let s1 : HostState := { s with sysPath := s.sysPath ++ [ironPythonLibDir] }
  match s1.avatarTransform with
  | none =>
      { result := .error .componentNotFound, state := s1,
        trace := [.pathAppend ironPythonLibDir, .getComponent] }
  | some c =>
      let translation := c.committed
      let r1 := s1.rng s1.rngCursor
      let r2 := s1.rng (s1.rngCursor + 1)
      let s2 : HostState := { s1 with rngCursor := s1.rngCursor + 2 }
      let out := goto (translation.x + r1) (translation.y + r2) s2
      { result := out.result
        state := out.state
        trace := [.pathAppend ironPythonLibDir, .getComponent,
                  .readTranslation translation, .randomDraw r1, .randomDraw r2]
                  ++ out.trace }

/-- The avatar's committed translation, when its Transform is resolvable. -/
def committedTranslation (s : HostState) : Option Vec2 :=
  s.avatarTransform.map Transform.committed

/-- A resolvable Transform holds no staged-but-uncommitted translation. -/
def transformSynced : Option Transform → Bool
  | none => true
  | some c => decide (c.pending = c.committed)

/-- Event predicate: a write to the Transform's pending-translation field. -/
def isPendingWrite : Event → Bool
  | .setTranslation _ => true
  | _ => false

/-- Event predicate: a write to the Transform's committed-translation field. -/
def isCommittedWrite : Event → Bool
  | .applyTranslation => true
  | _ => false

/-- Event predicate: a write to the character's base stat `t`. -/
def isStatWrite (t : ℕ) : Event → Bool
  | .setBaseValue u _ => decide (u = t)
  | _ => false

/-- Event predicate: a write to shared state outside the host's entities
(the module search path). -/
def isNonEntityWrite : Event → Bool
  | .pathAppend _ => true
  | _ => false

/-- Event predicate: a component resolution request to the manager. -/
def isComponentResolve : Event → Bool
  | .getComponent => true
  | _ => false

/-- A Transform whose staged and committed translations are both the origin. -/
def zeroTransform : Transform := { pending := ⟨0, 0⟩, committed := ⟨0, 0⟩ }

/-- A concrete host state: avatar at the origin, empty search path. -/
def baseState : HostState :=
  { avatarTransform := some zeroTransform
    charStats := fun _ => 0
    sysPath := []
    rng := fun _ => 0
    rngCursor := 0 }

/-- A concrete host state whose avatar Transform cannot be resolved. -/
def noTransformState : HostState := { baseState with avatarTransform := none }

/-- A mocked random source returning 0.3 then 0.7. -/
def mockRng : ℕ → ℚ := fun n => if n = 0 then 0.3 else if n = 1 then 0.7 else 0

/-- Avatar at (0, 0) with the random source mocked to return 0.3 then 0.7. -/
def mockState : HostState := { baseState with rng := mockRng }

theorem goto_sysPath (x y : ℚ) (s : HostState) :
    (goto x y s).state.sysPath = s.sysPath := by
  cases h : s.avatarTransform <;> simp [goto, h]

theorem goto_charStats (x y : ℚ) (s : HostState) :
    (goto x y s).state.charStats = s.charStats := by
  cases h : s.avatarTransform <;> simp [goto, h]

/-- C1: a completed `goto x y` call leaves the avatar's committed translation
exactly `(x, y)`, the commit being a pure assignment of the staged value. -/
theorem goto_commits_target (x y : ℚ) (s : HostState)
    (h : (goto x y s).result = .ok ()) :
    committedTranslation (goto x y s).state = some ⟨x, y⟩ := by
  cases hs : s.avatarTransform with
  | none => simp [goto, hs] at h
  | some c => simp [goto, hs, committedTranslation]

/-- C1 witness: `goto 12.5 5` from the base state completes and commits
translation (12.5, 5). -/
theorem goto_commits_target_witness :
    (goto 12.5 5 baseState).result = .ok () ∧
    committedTranslation (goto 12.5 5 baseState).state = some ⟨12.5, 5⟩ :=
  ⟨rfl, goto_commits_target 12.5 5 baseState rfl⟩

/-- C2: with the avatar's committed translation at (a, b) and the random
source about to yield dx then dy, each in [0, 1), `desync` draws the X
offset first and is equivalent to `goto (a + dx) (b + dy)`: both complete
and both commit exactly (a + dx, b + dy). -/
theorem desync_eq_goto_offset (s : HostState) (a b dx dy : ℚ)
    (hc : committedTranslation s = some ⟨a, b⟩)
    (h1 : s.rng s.rngCursor = dx) (h2 : s.rng (s.rngCursor + 1) = dy)
    (hdx : 0 ≤ dx ∧ dx < 1) (hdy : 0 ≤ dy ∧ dy < 1) :
    committedTranslation (desync s).state = some ⟨a + dx, b + dy⟩ ∧
    (desync s).result = .ok () ∧
    committedTranslation (desync s).state =
      committedTranslation (goto (a + dx) (b + dy) s).state := by
  cases hs : s.avatarTransform with
  | none => simp [committedTranslation, hs] at hc
  | some c =>
      have hcc : c.committed = ⟨a, b⟩ := by
        simpa [committedTranslation, hs] using hc
      refine ⟨?_, ?_, ?_⟩ <;>
        simp [desync, goto, hs, committedTranslation, hcc, h1, h2]

/-- C2 witness: avatar at (0, 0), random source mocked to return 0.3 then
0.7; `desync` commits exactly (0.3, 0.7). -/
theorem desync_eq_goto_offset_witness :
    committedTranslation (desync mockState).state = some ⟨0.3, 0.7⟩ := by
  have h := desync_eq_goto_offset mockState 0 0 0.3 0.7 rfl rfl rfl
    ⟨by norm_num, by norm_num⟩ ⟨by norm_num, by norm_num⟩
  simpa using h.1

/-- C3: when the host cannot resolve the avatar's Transform component,
`goto` fails with `componentNotFound` and the host state is unchanged:
nothing is staged and nothing is committed. -/
theorem goto_componentNotFound_unchanged (x y : ℚ) (s : HostState)
    (h : s.avatarTransform = none) :
    (goto x y s).result = .error .componentNotFound ∧
    (goto x y s).state = s := by
  simp [goto, h]

/-- C3 witness: `goto 1 2` on a state whose Transform is unresolvable fails
with `componentNotFound` and leaves the state unchanged. -/
theorem goto_componentNotFound_unchanged_witness :
    (goto 1 2 noTransformState).result = .error .componentNotFound ∧
    (goto 1 2 noTransformState).state = noTransformState :=
  goto_componentNotFound_unchanged 1 2 noTransformState rfl

/-- C4: `setBaseStat` forwards the stat type and value unchanged to the host
character's base-value setter, so a subsequent read of that stat yields
exactly the value written. -/
theorem setBaseStat_forwards (type : ℕ) (value : ℚ) (s : HostState) :
    (setBaseStat type value s).trace = [.setBaseValue type value] ∧
    (setBaseStat type value s).state.charStats type = value := by
  simp [setBaseStat]

/-- C5: every `goto x y` call that resolves the Transform issues exactly the
three host calls in order — resolve, stage (x, y), then apply — and the
staged value overwrites any prior pending value, the commit copying it. -/
theorem goto_two_phase (x y : ℚ) (s : HostState) (c : Transform)
    (h : s.avatarTransform = some c) :
    (goto x y s).trace =
      [.getComponent, .setTranslation ⟨x, y⟩, .applyTranslation] ∧
    (goto x y s).state.avatarTransform =
      some { pending := ⟨x, y⟩, committed := ⟨x, y⟩ } := by
  simp [goto, h]

/-- A state whose Transform carries a stale pending value (9, 9) distinct
from its committed value (1, 2). -/
def stalePendingState : HostState :=
  { baseState with avatarTransform := some { pending := ⟨9, 9⟩, committed := ⟨1, 2⟩ } }

/-- C5 witness: `goto 4 5` on a state with stale pending (9, 9) issues
resolve, stage, apply in order and overwrites the pending value. -/
theorem goto_two_phase_witness :
    (goto 4 5 stalePendingState).trace =
      [.getComponent, .setTranslation ⟨4, 5⟩, .applyTranslation] ∧
    (goto 4 5 stalePendingState).state.avatarTransform =
      some { pending := ⟨4, 5⟩, committed := ⟨4, 5⟩ } :=
  goto_two_phase 4 5 stalePendingState { pending := ⟨9, 9⟩, committed := ⟨1, 2⟩ } rfl

/-- C6 counterexample: `desync` mutates the module search path — shared
process state outside the host's entities — already at the base state. -/
theorem desync_mutates_search_path :
    (desync baseState).state.sysPath ≠ baseState.sysPath := by
  simp [desync, goto, baseState, zeroTransform]

/-- C6 (amended): each call writes each entity field at most once; `goto`
and `setBaseStat` write no shared state outside the host's entities, while
`desync` additionally issues exactly one non-entity write, the module
search path append. -/
theorem writes_per_field_bound (x y : ℚ) (type : ℕ) (value : ℚ) (s : HostState) :
    ((goto x y s).trace.countP isPendingWrite ≤ 1 ∧
     (goto x y s).trace.countP isCommittedWrite ≤ 1 ∧
     (∀ t, (goto x y s).trace.countP (isStatWrite t) = 0) ∧
     (goto x y s).trace.countP isNonEntityWrite = 0) ∧
    ((setBaseStat type value s).trace.countP isPendingWrite = 0 ∧
     (setBaseStat type value s).trace.countP isCommittedWrite = 0 ∧
     (∀ t, (setBaseStat type value s).trace.countP (isStatWrite t) ≤ 1) ∧
     (setBaseStat type value s).trace.countP isNonEntityWrite = 0) ∧
    ((desync s).trace.countP isPendingWrite ≤ 1 ∧
     (desync s).trace.countP isCommittedWrite ≤ 1 ∧
     (∀ t, (desync s).trace.countP (isStatWrite t) = 0) ∧
     (desync s).trace.countP isNonEntityWrite = 1) := by
  cases h : s.avatarTransform <;>
    simp [goto, desync, setBaseStat, h, List.countP_cons, List.countP_nil,
      isPendingWrite, isCommittedWrite, isStatWrite, isNonEntityWrite] <;>
    intro t <;> split <;> simp

/-- C7 counterexample: two `desync` calls from the base state (whose search
path starts empty) extend the search path twice — once per invocation —
refuting that the extension is performed at most once per process. -/
theorem desync_path_extension_not_once :
    baseState.sysPath = [] ∧
    (desync (desync baseState).state).state.sysPath =
      [ironPythonLibDir, ironPythonLibDir] := by
  constructor
  · rfl
  · simp [desync, goto, baseState, zeroTransform]

/-- C7 (amended): the search-path extension is performed on every `desync`
invocation, exactly once per call, appending the library directory even
when the subsequent component lookup fails. -/
theorem desync_extends_path_each_call (s : HostState) :
    (desync s).state.sysPath = s.sysPath ++ [ironPythonLibDir] := by
  cases h : s.avatarTransform <;> simp [desync, h, goto_sysPath]

/-- C8: after any `goto` or `desync` call — in particular after every
completed one — no staged-but-uncommitted translation remains: whenever the
Transform is resolvable, its pending and committed translations agree. -/
theorem no_pending_after_call (x y : ℚ) (s : HostState) :
    transformSynced (goto x y s).state.avatarTransform = true ∧
    transformSynced (desync s).state.avatarTransform = true := by
  cases h : s.avatarTransform <;>
    simp [goto, desync, transformSynced, h]

/-- C9: the two entity surfaces never interfere: `goto` and `desync` leave
the character's stats untouched, and `setBaseStat` leaves the avatar's
Transform untouched, always succeeds, and resolves no component (so it can
never raise `componentNotFound`). -/
theorem surfaces_independent (x y : ℚ) (type : ℕ) (value : ℚ) (s : HostState) :
    (goto x y s).state.charStats = s.charStats ∧
    (desync s).state.charStats = s.charStats ∧
    (setBaseStat type value s).state.avatarTransform = s.avatarTransform ∧
    (setBaseStat type value s).result = .ok () ∧
    (setBaseStat type value s).trace.countP isComponentResolve = 0 := by
  cases h : s.avatarTransform <;>
    simp [goto, desync, setBaseStat, h, List.countP_cons, List.countP_nil,
      isComponentResolve]

/-- C10: `desync` is deterministic in its inputs: two runs from states with
the same committed avatar translation whose random sources yield the same
two draws in the same order produce the same committed translation. -/
theorem desync_deterministic (s1 s2 : HostState)
    (hc : committedTranslation s1 = committedTranslation s2)
    (h1 : s1.rng s1.rngCursor = s2.rng s2.rngCursor)
    (h2 : s1.rng (s1.rngCursor + 1) = s2.rng (s2.rngCursor + 1)) :
    committedTranslation (desync s1).state =
      committedTranslation (desync s2).state := by
  cases ha : s1.avatarTransform with
  | none =>
      cases hb : s2.avatarTransform with
      | none => simp [desync, ha, hb, committedTranslation]
      | some d => simp [committedTranslation, ha, hb] at hc
  | some c =>
      cases hb : s2.avatarTransform with
      | none => simp [committedTranslation, ha, hb] at hc
      | some d =>
          have hcd : c.committed = d.committed := by
            simpa [committedTranslation, ha, hb] using hc
          simp [desync, goto, ha, hb, committedTranslation, hcd, h1, h2]

/-- A state with the same committed translation and same next two random
draws as `mockState`, but a different pending value, stats, search path,
random tail and cursor position. -/
def mockState2 : HostState :=
  { avatarTransform := some { pending := ⟨9, 9⟩, committed := ⟨0, 0⟩ }
    charStats := fun _ => 42
    sysPath := ["elsewhere"]
    rng := fun n => if n = 5 then 0.3 else if n = 6 then 0.7 else 99
    rngCursor := 5 }

/-- C10 witness: two concrete runs agreeing only on the committed
translation and the next two draws produce the same committed result. -/
theorem desync_deterministic_witness :
    committedTranslation (desync mockState).state =
      committedTranslation (desync mockState2).state :=
  desync_deterministic mockState mockState2 rfl rfl rfl
